import Mathlib

/-!
Verification of the `cygwinccompiler` toolchain adapter
(`setuptools/_distutils/cygwinccompiler.py`).

The development shallowly embeds the module's pure content:

* the MSVC runtime-library lookup table and `get_msvcr`;
* the `CygwinCCompiler.link` operation, as a pure function from its
  arguments and the adapter state to the observable outcome (warnings
  emitted, the generated module-definition file, and the arguments handed
  to the underlying `UnixCCompiler.link` step), with Python runtime
  errors (`TypeError`, `IndexError`) made explicit;
* a second, store-based embedding of `link` in which Python lists are
  heap cells, used to state the no-mutation (frame) property;
* output-path derivation (`_make_out_path`) over a model of the Windows
  (`ntpath`) path functions the code calls, restricted to paths without
  drive letters;
* adapter construction (`CygwinCCompiler.__init__`,
  `Mingw32CCompiler.__init__`) and `is_cygwincc`, with the external
  `cc -dumpmachine` process modelled as an oracle.
-/

/-! ## Windows path functions (`ntpath`)

The source calls `os.path.dirname`, `os.path.basename`,
`os.path.splitext`, `os.path.join` and `os.path.normcase`.  The adapter
targets Windows, so these are modelled after CPython's `ntpath`
implementation, restricted to paths without drive letters or UNC roots
(the module only ever forms relative build paths from object-file and
output-file names). -/

/-- Windows recognizes both `\` and `/` as path separators. -/
def isPathSep (c : Char) : Bool :=
  c = '/' || c = '\\'

/-- Index just past the last path separator of the list, `0` when there is
no separator (the `i` computed by `ntpath.split`'s backward scan). -/
def splitIdx : List Char → Nat
  | [] => 0
  | c :: rest =>
    let i := splitIdx rest
    if i = 0 then (if isPathSep c then 1 else 0) else i + 1

/-- `ntpath.basename`: everything after the last separator. -/
def ntBasename (p : String) : String :=
  String.mk (p.data.drop (splitIdx p.data))

/-- Strip trailing path separators (`str.rstrip(seps)`). -/
def rstripSeps (l : List Char) : List Char :=
  (l.reverse.dropWhile isPathSep).reverse

/-- `ntpath.dirname`: the part before the last separator, with trailing
separators stripped unless that would leave nothing
(`head.rstrip(seps) or head`). -/
def ntDirname (p : String) : String :=
  let head := p.data.take (splitIdx p.data)
  let head' := rstripSeps head
  String.mk (if head' = [] then head else head')

/-- `ntpath.join` for driveless paths: an absolute second component wins;
otherwise insert a `\` unless the first component is empty or already
ends in a separator. -/
def ntJoin (a b : String) : String :=
  if isPathSep (b.data.headD 'x') then b
  else if a = "" then b
  else if isPathSep (a.data.getLastD 'x') then a ++ b
  else a ++ "\\" ++ b

/-- Rightmost index at which `pred` holds (`str.rfind` restricted to a
character class), `none` when absent. -/
def lastIdxP (pred : Char → Bool) : List Char → Option Nat
  | [] => none
  | c :: rest =>
    match lastIdxP pred rest with
    | some i => some (i + 1)
    | none => if pred c then some 0 else none

/-- `str.rfind` convention: `-1` when the character class is absent. -/
def lastIdxI (pred : Char → Bool) (l : List Char) : Int :=
  match lastIdxP pred l with
  | some i => (i : Int)
  | none => -1

/-- `ntpath.splitext` (`genericpath._splitext` with seps `\`, `/` and
extension separator `.`): split at the last dot after the last path
separator, except that a basename consisting only of leading dots up to
that position has no extension. -/
def ntSplitextList (l : List Char) : List Char × List Char :=
  let sepIdx := lastIdxI isPathSep l
  let dotIdx := lastIdxI (fun c => c = '.') l
  if sepIdx < dotIdx then
    let fIdx := (sepIdx + 1).toNat
    let d := dotIdx.toNat
    if (List.range (d - fIdx)).all (fun k => l.getD (fIdx + k) 'x' = '.') then
      (l, [])
    else
      (l.take d, l.drop d)
  else (l, [])

/-- `ntpath.splitext` on strings. -/
def ntSplitext (p : String) : String × String :=
  let (a, b) := ntSplitextList p.data
  (String.mk a, String.mk b)

/-- The character rewrite performed by `ntpath.normcase`'s
`replace('/', '\\')`. -/
def replSep (c : Char) : Char :=
  if c = '/' then '\\' else c

/-- `ntpath.normcase`: replace `/` with `\`, then lowercase.  Python's
`str.lower()` is modelled by `Char.toLower`, which agrees with it on the
ASCII letters that appear in paths. -/
def ntNormcase (s : String) : String :=
  String.mk ((s.data.map replSep).map Char.toLower)

/-! ## Runtime-library resolver (`_msvcr_lookup`, `get_msvcr`) -/

/-- The version-boundary table of `_msvcr_lookup`, in the source's
ascending order; `none` is `RangeMap.undefined_value` (the 2000
sentinel). -/
def _msvcr_lookup : List (Nat × Option (List String)) :=
  [ (1300, some ["msvcr70"]),
    (1310, some ["msvcr71"]),
    (1400, some ["msvcr80"]),
    (1500, some ["msvcr90"]),
    (1600, some ["msvcr100"]),
    (1700, some ["msvcr110"]),
    (1800, some ["msvcr120"]),
    (1900, some ["vcruntime140"]),
    (2000, none) ]

/-- Modelled from the spec: the lookup performed by `RangeMap.left`
(from `_collections.py`, which is not under `src/`): the keys are
considered in descending order ("largest boundary ≤ version" semantics)
and the first key `≤ v` selects the entry; no such key, or an entry that
is the undefined sentinel, makes the lookup fail (`KeyError`).  The
source table is ascending, so its reverse is the descending key order. -/
def rangeMapLeftLookup (t : List (Nat × Option (List String))) (v : Nat) :
    Option (List String) :=
  match t.reverse.find? (fun p => p.fst ≤ v) with
  | none => none
  | some p => p.snd

/-- A digit's numeric value. -/
def digitVal (c : Char) : Nat :=
  c.toNat - 48

/-- Does the regular expression `MSC v\.(\d\x7b4\x7d)` match at the head of
the list?  If so, return the captured four-digit number. -/
def mscVerAt : List Char → Option Nat
  | 'M' :: 'S' :: 'C' :: ' ' :: 'v' :: '.' :: d1 :: d2 :: d3 :: d4 :: _ =>
    if d1.isDigit && d2.isDigit && d3.isDigit && d4.isDigit then
      some (digitVal d1 * 1000 + digitVal d2 * 100 + digitVal d3 * 10 + digitVal d4)
    else none
  | _ => none

/-- `re.search(r'MSC v\.(\d\x7b4\x7d)', s)`: the leftmost match wins. -/
def mscVerSearch : List Char → Option Nat
  | [] => none
  | c :: rest =>
    match mscVerAt (c :: rest) with
    | some n => some n
    | none => mscVerSearch rest

/-- `get_msvcr`, with the ambient `sys.version` made a parameter.
`Except.ok none` is Python's `return None` (no `MSC v.` marker);
`Except.ok (some libs)` is a successful table lookup; `Except.error` is
the `ValueError` raised when the lookup fails with `KeyError`. -/
def get_msvcr (version : String) : Except String (Option (List String)) :=
  match mscVerSearch version.data with
  | none => .ok none
  | some msc_ver =>
    match rangeMapLeftLookup _msvcr_lookup msc_ver with
    | some libs => .ok (some libs)
    | none => .error ("Unknown MS Compiler version " ++ Nat.repr msc_ver ++ " ")

/-- Spec-side rendering of "the library list associated with the greatest
table boundary ≤ v", spelled out over the table's boundaries for
`1300 ≤ v < 2000`. -/
def specMsvcrFor (v : Nat) : List String :=
  if v < 1310 then ["msvcr70"]
  else if v < 1400 then ["msvcr71"]
  else if v < 1500 then ["msvcr80"]
  else if v < 1600 then ["msvcr90"]
  else if v < 1700 then ["msvcr100"]
  else if v < 1800 then ["msvcr110"]
  else if v < 1900 then ["msvcr120"]
  else ["vcruntime140"]

/-! ## Adapter state and construction -/

/-- The fields of a constructed `CygwinCCompiler` that the claims touch:
the executables chosen in `__init__` (with `CC`/`CXX` environment
overrides), `linker_dll`, and the runtime libraries resolved by
`get_msvcr` (`dll_libraries`, which is Python `None` when `sys.version`
has no `MSC v.` marker). -/
structure CygwinState where
  cc : String
  cxx : String
  linker_dll : String
  dll_libraries : Option (List String)
  deriving Repr, DecidableEq

/-- `CygwinCCompiler.__init__`, with the environment (`CC`, `CXX`) and
`sys.version` as parameters.  The advisory `check_config_h` warning never
raises and does not affect the state, so it is not modelled; the
`ValueError` that `get_msvcr` can raise propagates out of construction. -/
def cygwinInit (env_cc env_cxx : Option String) (version : String) :
    Except String CygwinState :=
  let cc := env_cc.getD "gcc"
  let cxx := env_cxx.getD "g++"
  match get_msvcr version with
  | .error e => .error e
  | .ok dlls => .ok { cc := cc, cxx := cxx, linker_dll := cc, dll_libraries := dlls }

/-- ASCII whitespace as stripped by Python's `bytes.strip()`. -/
def isAsciiSpace (c : Char) : Bool :=
  c = ' ' || c = '\t' || c = '\n' || c = '\r' || c = '\x0b' || c = '\x0c'

/-- `bytes.strip()`: drop ASCII whitespace from both ends. -/
def bstrip (l : List Char) : List Char :=
  ((l.dropWhile isAsciiSpace).reverse.dropWhile isAsciiSpace).reverse

/-- `bytes.endswith`: the second list is a suffix of the first. -/
def listEndsWith (l suf : List Char) : Bool :=
  if suf.length ≤ l.length then decide (l.drop (l.length - suf.length) = suf)
  else false

/-- `is_cygwincc`: run `cc -dumpmachine` and test whether the stripped
output ends in `cygwin` (`out_string.strip().endswith(b'cygwin')`).  The
external process is an oracle `dump` from the configured compiler string
to its output. -/
def is_cygwincc (cc : String) (dump : String → String) : Bool :=
  listEndsWith (bstrip (dump cc).data) "cygwin".data

/-- Errors observable from `Mingw32CCompiler.__init__`: the `ValueError`
propagated from `get_msvcr` in the superclass constructor, or the
`CCompilerError` raised for a Cygwin-targeting compiler. -/
inductive InitErr where
  | valueError (msg : String)
  | ccompilerError (msg : String)
  deriving Repr, DecidableEq

/-- `Mingw32CCompiler.__init__`: run the superclass constructor first
(which may raise `ValueError` from `get_msvcr`), then raise
`CCompilerError` if `is_cygwincc(self.cc)`. -/
def mingw32Init (env_cc env_cxx : Option String) (version : String)
    (dump : String → String) : Except InitErr CygwinState :=
  match cygwinInit env_cc env_cxx version with
  | .error e => .error (.valueError e)
  | .ok st =>
    if is_cygwincc st.cc dump then
      .error (.ccompilerError "Cygwin gcc cannot be used with --compiler=mingw32")
    else
      .ok st

/-! ## The link operation -/

/-- Modelled from the spec: the base adapter's target-kind marker for
executables (`CCompiler.EXECUTABLE` from `ccompiler.py`, which is not
under `src/`; the spec's "target kind shared library vs. executable"). -/
def EXECUTABLE : String := "executable"

/-- The warning message `_runtime_library_dirs_msg`. -/
def _runtime_library_dirs_msg : String :=
  "Unable to set runtime library search path on Windows, " ++
  "usually indicated by `runtime_library_dirs` parameter to Extension"

/-- Python truthiness of an optional list (`if runtime_library_dirs:`):
`None` and the empty list are falsy. -/
def truthy (o : Option (List String)) : Bool :=
  match o with
  | some (_ :: _) => true
  | _ => false

/-- The guard of the def-file branch:
`(export_symbols is not None) and (target_desc != self.EXECUTABLE or
self.linker_dll == "gcc")`. -/
def exportCond (st : CygwinState) (target_desc : String)
    (export_symbols : Option (List String)) : Bool :=
  export_symbols.isSome && (target_desc != EXECUTABLE || st.linker_dll == "gcc")

/-- The def-file path: `os.path.join(os.path.dirname(objects[0]),
dll_name + ".def")` where `dll_name` is the extension-stripped basename
of the output filename. -/
def defFilePath (object0 output_filename : String) : String :=
  ntJoin (ntDirname object0) ((ntSplitext (ntBasename output_filename)).fst ++ ".def")

/-- Python runtime errors that `CygwinCCompiler.link` can raise before
delegating: `TypeError` from `libraries.extend(None)` when
`dll_libraries` is `None`, and `IndexError` from `objects[0]` when the
object list is empty. -/
inductive LinkErr where
  | typeError
  | indexError
  deriving Repr, DecidableEq

/-- The arguments `CygwinCCompiler.link` hands to `UnixCCompiler.link`. -/
structure UnixLinkArgs where
  target_desc : String
  objects : List String
  output_filename : String
  output_dir : Option String
  libraries : List String
  library_dirs : Option (List String)
  runtime_library_dirs : Option (List String)
  export_symbols : Option (List String)
  debug : Bool
  extra_preargs : List String
  extra_postargs : Option (List String)
  build_temp : Option String
  target_lang : Option String
  deriving Repr, DecidableEq

deriving instance DecidableEq for Except

/-- The observable outcome of one `CygwinCCompiler.link` call: the
warnings emitted, the module-definition file written (path and content
lines), and either the delegated `UnixCCompiler.link` arguments or the
Python error raised on the way. -/
structure LinkOutcome where
  warnings : List String
  defFile : Option (String × List String)
  result : Except LinkErr UnixLinkArgs
  deriving Repr, DecidableEq

/-- `CygwinCCompiler.link`.  The caller's optional lists are replaced by
copies (`copy.copy(xs or [])`); a truthy `runtime_library_dirs` emits the
unsupported-feature warning; `dll_libraries` is appended to the library
list (`TypeError` when it is `None`); the def-file branch writes the
module-definition file next to the first object file and appends its path
to the object list; without the debug flag, `"-s"` is appended to the
extra pre-link arguments; finally everything is handed to
`UnixCCompiler.link` with `None` for `export_symbols`. -/
def cygwinLink (st : CygwinState) (target_desc : String)
    (objects : Option (List String)) (output_filename : String)
    (output_dir : Option String) (libraries : Option (List String))
    (library_dirs runtime_library_dirs export_symbols : Option (List String))
    (debug : Bool) (extra_preargs extra_postargs : Option (List String))
    (build_temp target_lang : Option String) : LinkOutcome :=
  let extra_preargs' := extra_preargs.getD []
  let libraries' := libraries.getD []
  let objects' := objects.getD []
  let warnings := if truthy runtime_library_dirs then [_runtime_library_dirs_msg] else []
  match st.dll_libraries with
  | none => { warnings := warnings, defFile := none, result := .error .typeError }
  | some dlls =>
    let libraries2 := libraries' ++ dlls
    if exportCond st target_desc export_symbols then
      match objects' with
      | [] => { warnings := warnings, defFile := none, result := .error .indexError }
      | o0 :: rest =>
        let def_file := defFilePath o0 output_filename
        let contents :=
          ("LIBRARY " ++ ntBasename output_filename) :: "EXPORTS" ::
            export_symbols.getD []
        let objects2 := (o0 :: rest) ++ [def_file]
        let extra2 := if debug then extra_preargs' else extra_preargs' ++ ["-s"]
        { warnings := warnings,
          defFile := some (def_file, contents),
          result := .ok
            { target_desc := target_desc, objects := objects2,
              output_filename := output_filename, output_dir := output_dir,
              libraries := libraries2, library_dirs := library_dirs,
              runtime_library_dirs := runtime_library_dirs,
              export_symbols := none, debug := debug,
              extra_preargs := extra2, extra_postargs := extra_postargs,
              build_temp := build_temp, target_lang := target_lang } }
    else
      let extra2 := if debug then extra_preargs' else extra_preargs' ++ ["-s"]
      { warnings := warnings,
        defFile := none,
        result := .ok
          { target_desc := target_desc, objects := objects',
            output_filename := output_filename, output_dir := output_dir,
            libraries := libraries2, library_dirs := library_dirs,
            runtime_library_dirs := runtime_library_dirs,
            export_symbols := none, debug := debug,
            extra_preargs := extra2, extra_postargs := extra_postargs,
            build_temp := build_temp, target_lang := target_lang } }

/-- `CygwinCCompiler.runtime_library_dir_option`: emit the warning and
contribute no linker flags; the pair is (warnings, flags). -/
def cygwin_runtime_library_dir_option (_dir : String) : List String × List String :=
  ([_runtime_library_dirs_msg], [])

/-- `Mingw32CCompiler.runtime_library_dir_option`: raise
`DistutilsPlatformError` with the same message. -/
def mingw32_runtime_library_dir_option (_dir : String) : Except String (List String) :=
  .error _runtime_library_dirs_msg

/-! ## Output-path derivation (`_make_out_path`, `out_extensions`) -/

/-- Modelled from the spec: the base adapter's source extensions
(`UnixCCompiler.src_extensions`, not under `src/`), each mapped to the
object extension by the base `out_extensions` property. -/
def base_src_extensions : List String :=
  [".c", ".C", ".cc", ".cxx", ".cpp", ".m"]

/-- `CygwinCCompiler.out_extensions`: the base mapping (each source
extension to `".o"`) updated with `.res` and `.rc` mapped to themselves
plus the object extension. -/
def cygwin_out_extensions : List (String × String) :=
  (base_src_extensions.map (fun e => (e, ".o"))) ++
    [(".res", ".res.o"), (".rc", ".rc.o")]

/-- Dictionary lookup in the extension mapping (keys are distinct). -/
def outExtLookup (ext : String) : Option String :=
  (cygwin_out_extensions.find? (fun p => p.fst == ext)).map Prod.snd

/-- Modelled from the spec: `CCompiler._make_relative` (from
`ccompiler.py`, not under `src/`), restricted to driveless paths: strip
the leading separator of an absolute path. -/
def make_relative (base : String) : String :=
  match base.data with
  | c :: rest => if isPathSep c then String.mk rest else base
  | [] => base

/-- Modelled from the spec: the base output-path derivation
(`CCompiler._make_out_path`, not under `src/`): split the extension, map
it through the extension table (`none` models `UnknownFileError`), make
the base relative, optionally strip its directory, and join with the
output directory. -/
def ccompiler_make_out_path (output_dir : String) (strip_dir : Bool)
    (src_name : String) : Option String :=
  let be := ntSplitext src_name
  let base1 := make_relative be.fst
  match outExtLookup be.snd with
  | none => none
  | some new_ext =>
    let base2 := if strip_dir then ntBasename base1 else base1
    some (ntJoin output_dir (base2 ++ new_ext))

/-- `CygwinCCompiler._make_out_path`: normalize the case of the whole
source name (`os.path.normcase`), then defer to the base derivation. -/
def cygwin_make_out_path (output_dir : String) (strip_dir : Bool)
    (src_name : String) : Option String :=
  ccompiler_make_out_path output_dir strip_dir (ntNormcase src_name)

/-! ## Heap view of `link` for the no-mutation property -/

/-- Read a list object from the store (out-of-range reads give `[]`; the
frame theorem only ever reads allocated cells). -/
def storeGet (s : List (List String)) (i : Nat) : List String :=
  s.getD i []

/-- Overwrite a list object in place (`list.append` / `list.extend`). -/
def storeSet (s : List (List String)) (i : Nat) (v : List String) :
    List (List String) :=
  s.set i v

/-- `CygwinCCompiler.link` at the heap level: the caller's three mutable
list arguments are references into a store of list objects; `None`
arguments are absent lists.  `copy.copy(xs or [])` allocates three fresh
cells at the end of the store, and every later `append`/`extend` of the
method writes only those fresh cells.  The function returns the final
store (at the point of a raised `TypeError`/`IndexError`, the store as of
the raise). -/
def cygwinLinkSt (st0 : List (List String)) (state : CygwinState)
    (target_desc : String) (objectsRef : Option Nat) (output_filename : String)
    (librariesRef : Option Nat) (_runtime_library_dirs : Option (List String))
    (export_symbols : Option (List String)) (debug : Bool)
    (extra_preargsRef : Option Nat) : List (List String) :=
  let epVal := match extra_preargsRef with
    | none => []
    | some r => storeGet st0 r
  let libVal := match librariesRef with
    | none => []
    | some r => storeGet st0 r
  let objVal := match objectsRef with
    | none => []
    | some r => storeGet st0 r
  let ep := st0.length
  let lib := st0.length + 1
  let obj := st0.length + 2
  let st1 := st0 ++ [epVal, libVal, objVal]
  match state.dll_libraries with
  | none => st1
  | some dlls =>
    let st2 := storeSet st1 lib (storeGet st1 lib ++ dlls)
    if exportCond state target_desc export_symbols then
      match storeGet st2 obj with
      | [] => st2
      | o0 :: _ =>
        let def_file := defFilePath o0 output_filename
        let st3 := storeSet st2 obj (storeGet st2 obj ++ [def_file])
        if debug then st3 else storeSet st3 ep (storeGet st3 ep ++ ["-s"])
    else
      if debug then st2 else storeSet st2 ep (storeGet st2 ep ++ ["-s"])

/-! ## Concrete states and oracles used by the witnesses -/

/-- A constructed adapter on an MSC-built interpreter, shared by the
concrete witnesses. -/
def sampleState : CygwinState :=
  { cc := "gcc", cxx := "g++", linker_dll := "gcc",
    dll_libraries := some ["vcruntime140"] }

/-- sample delegated args for the C5 witness -/
def c5r : UnixLinkArgs :=
  { target_desc := EXECUTABLE, objects := ["a.o"], output_filename := "prog.exe",
    output_dir := none, libraries := ["vcruntime140"], library_dirs := none,
    runtime_library_dirs := none, export_symbols := none, debug := false,
    extra_preargs := ["-O2", "-s"], extra_postargs := none, build_temp := none,
    target_lang := none }

/-- A version string with no MSC marker, as on a GCC-built interpreter. -/
def gccVersionStr : String := "3.9.13 (main, May 17 2022, 14:30:00) [GCC 11.2.0]"

/-- The adapter state constructed on such an interpreter. -/
def gccNoMscState : CygwinState :=
  { cc := "gcc", cxx := "g++", linker_dll := "gcc", dll_libraries := none }

/-- Oracle: `cc -dumpmachine` output of a Cygwin-targeting gcc. -/
def cygDump : String → String := fun _ => "x86_64-pc-cygwin\n"

/-- Oracle: `cc -dumpmachine` output of a MinGW-targeting gcc. -/
def mingwDump : String → String := fun _ => "x86_64-w64-mingw32\n"

set_option maxHeartbeats 1000000

/-! ## Helper lemmas -/

/-- Closed-form evaluation of the range lookup over the concrete table. -/
theorem rangeMapLeftLookup_msvcr (v : Nat) :
    rangeMapLeftLookup _msvcr_lookup v =
      if 2000 <= v then none
      else if 1900 <= v then some ["vcruntime140"]
      else if 1800 <= v then some ["msvcr120"]
      else if 1700 <= v then some ["msvcr110"]
      else if 1600 <= v then some ["msvcr100"]
      else if 1500 <= v then some ["msvcr90"]
      else if 1400 <= v then some ["msvcr80"]
      else if 1310 <= v then some ["msvcr71"]
      else if 1300 <= v then some ["msvcr70"]
      else none := by
  have hrev : _msvcr_lookup.reverse =
      [ (2000, none),
        (1900, some ["vcruntime140"]),
        (1800, some ["msvcr120"]),
        (1700, some ["msvcr110"]),
        (1600, some ["msvcr100"]),
        (1500, some ["msvcr90"]),
        (1400, some ["msvcr80"]),
        (1310, some ["msvcr71"]),
        (1300, some ["msvcr70"]) ] := by rfl
  unfold rangeMapLeftLookup
  rw [hrev]
  by_cases h1 : 2000 <= v
  · simp [h1]
  · by_cases h2 : 1900 <= v
    · simp [h1, h2]
    · by_cases h3 : 1800 <= v
      · simp [h1, h2, h3]
      · by_cases h4 : 1700 <= v
        · simp [h1, h2, h3, h4]
        · by_cases h5 : 1600 <= v
          · simp [h1, h2, h3, h4, h5]
          · by_cases h6 : 1500 <= v
            · simp [h1, h2, h3, h4, h5, h6]
            · by_cases h7 : 1400 <= v
              · simp [h1, h2, h3, h4, h5, h6, h7]
              · by_cases h8 : 1310 <= v
                · simp [h1, h2, h3, h4, h5, h6, h7, h8]
                · by_cases h9 : 1300 <= v
                  · simp [h1, h2, h3, h4, h5, h6, h7, h8, h9]
                  · simp [h1, h2, h3, h4, h5, h6, h7, h8, h9]

/-- Bool-to-Prop reading of the def-file guard. -/
theorem exportCond_iff (st : CygwinState) (td : String) (es : Option (List String)) :
    exportCond st td es = true ↔
      (es ≠ none ∧ (td ≠ EXECUTABLE ∨ st.linker_dll = "gcc")) := by
  simp [exportCond, Option.isSome_iff_ne_none]

/-- `(Char.ofNat m).toNat = m` for a valid codepoint. -/
theorem char_toNat_ofNat {m : Nat} (h : m.isValidChar) : (Char.ofNat m).toNat = m := by
  unfold Char.ofNat
  rw [dif_pos h]
  unfold Char.ofNatAux
  simp [Char.toNat, UInt32.toNat]

/-- Lowercasing never produces a path separator from a non-separator. -/
theorem toLower_eq_slash {c : Char} (h : Char.toLower c = '/') : c = '/' := by
  unfold Char.toLower at h
  dsimp only at h
  by_cases hb : c.toNat ≥ 65 ∧ c.toNat ≤ 90
  · exfalso
    rw [if_pos hb] at h
    have hv : (c.toNat + 32).isValidChar := by
      refine Or.inl ?_
      omega
    have ht := congrArg Char.toNat h
    rw [char_toNat_ofNat hv] at ht
    have h47 : ('/' : Char).toNat = 47 := by decide
    omega
  · rw [if_neg hb] at h
    exact h

/-- Separator replacement commutes with lowercasing. -/
theorem toLower_replSep (c : Char) :
    Char.toLower (replSep c) = replSep (Char.toLower c) := by
  by_cases hc : c = '/'
  · subst hc; decide
  · rw [show replSep c = c from if_neg hc]
    by_cases hl : Char.toLower c = '/'
    · exact absurd (toLower_eq_slash hl) hc
    · rw [show replSep (Char.toLower c) = Char.toLower c from if_neg hl]

/-- Two strings equal up to ASCII case have the same `normcase`. -/
theorem ntNormcase_eq_of_toLower_eq {a b : String}
    (h : a.data.map Char.toLower = b.data.map Char.toLower) :
    ntNormcase a = ntNormcase b := by
  have key : ∀ l : List Char,
      (l.map replSep).map Char.toLower = (l.map Char.toLower).map replSep := by
    intro l
    induction l with
    | nil => rfl
    | cons c cs ih => simp [ih, toLower_replSep]
  unfold ntNormcase
  rw [key, key, h]

/-- Reading below the old length is unaffected by allocation. -/
theorem storeGet_append (s t : List (List String)) (i : Nat) (h : i < s.length) :
    storeGet (s ++ t) i = storeGet s i := by
  unfold storeGet
  simp [List.getD, List.getElem?_append_left h]

/-- Reading a different cell is unaffected by a write. -/
theorem storeGet_set_ne (s : List (List String)) (j : Nat) (v : List String)
    (i : Nat) (h : j ≠ i) : storeGet (storeSet s j v) i = storeGet s i := by
  unfold storeGet storeSet
  simp [List.getD]
  rw [List.getElem?_set_ne h]

/-! ## The claims -/

/-- C1: for every version string carrying the `MSC v.` marker with value
`v`, `get_msvcr` returns exactly the library list of the greatest table
boundary <= `v` when `1300 <= v < 2000` (e.g. 1300-1309 give msvcr70,
1900-1999 give vcruntime140), and for `2000 <= v` it fails with the
unknown-compiler `ValueError` rather than returning a library list. -/
theorem C1_get_msvcr_resolution (s : String) (v : Nat)
    (h : mscVerSearch s.data = some v) :
    (1300 <= v -> v < 2000 -> get_msvcr s = .ok (some (specMsvcrFor v))) /\
    (2000 <= v ->
      get_msvcr s = .error ("Unknown MS Compiler version " ++ Nat.repr v ++ " ")) := by
  constructor
  · intro h1 h2
    have hl : rangeMapLeftLookup _msvcr_lookup v = some (specMsvcrFor v) := by
      rw [rangeMapLeftLookup_msvcr]
      unfold specMsvcrFor
      split_ifs <;> first | rfl | omega
    unfold get_msvcr
    rw [h]
    dsimp only
    rw [hl]
  · intro h1
    have hl : rangeMapLeftLookup _msvcr_lookup v = none := by
      rw [rangeMapLeftLookup_msvcr, if_pos h1]
    unfold get_msvcr
    rw [h]
    dsimp only
    rw [hl]


/-- Witness for C1: concrete version strings on both sides of the sentinel. -/
theorem C1_get_msvcr_resolution_witness :
    (mscVerSearch "3.10.4 [MSC v.1916 64 bit (AMD64)]".data = some 1916 /\
     get_msvcr "3.10.4 [MSC v.1916 64 bit (AMD64)]" = .ok (some (specMsvcrFor 1916))) /\
    (mscVerSearch "3.99.0 [MSC v.2100 64 bit]".data = some 2100 /\
     get_msvcr "3.99.0 [MSC v.2100 64 bit]" =
       .error ("Unknown MS Compiler version " ++ Nat.repr 2100 ++ " ")) := by
  refine ⟨⟨by decide, (C1_get_msvcr_resolution _ 1916 (by decide)).1 (by decide) (by decide)⟩,
          ⟨by decide, (C1_get_msvcr_resolution _ 2100 (by decide)).2 (by decide)⟩⟩

/-- C2: whenever a link call generates a module-definition file, its
content is exactly the line `LIBRARY <basename of the output filename>`,
then `EXPORTS`, then one line per export symbol in the caller's order,
and nothing else. -/
theorem C2_def_file_contents (st : CygwinState) (target_desc : String)
    (objects : Option (List String)) (output_filename : String)
    (output_dir : Option String)
    (libraries library_dirs runtime_library_dirs : Option (List String))
    (syms : List String) (debug : Bool)
    (extra_preargs extra_postargs : Option (List String))
    (build_temp target_lang : Option String) (p : String) (c : List String)
    (h : (cygwinLink st target_desc objects output_filename output_dir libraries
        library_dirs runtime_library_dirs (some syms) debug extra_preargs
        extra_postargs build_temp target_lang).defFile = some (p, c)) :
    c = ("LIBRARY " ++ ntBasename output_filename) :: "EXPORTS" :: syms := by
  unfold cygwinLink at h
  cases hd : st.dll_libraries with
  | none => rw [hd] at h; simp at h
  | some dlls =>
    rw [hd] at h
    dsimp only at h
    cases hc : exportCond st target_desc (some syms) with
    | false => simp [hc] at h
    | true =>
      simp only [hc, if_true] at h
      cases ho : objects.getD [] with
      | nil => rw [ho] at h; simp at h
      | cons o0 rest =>
        rw [ho] at h
        dsimp only at h
        rw [Option.some.injEq, Prod.mk.injEq] at h
        exact h.2.symm

/-- Witness for C2: symbols `["foo", "bar"]` and output name `mylib.dll`
give exactly `["LIBRARY mylib.dll", "EXPORTS", "foo", "bar"]`. -/
theorem C2_def_file_contents_witness :
    ((cygwinLink sampleState "shared_object" (some ["build/a.o"]) "mylib.dll" none none
        none none (some ["foo", "bar"]) false none none none none).defFile =
      some ("build\\mylib.def", ["LIBRARY mylib.dll", "EXPORTS", "foo", "bar"])) ∧
    ["LIBRARY mylib.dll", "EXPORTS", "foo", "bar"] =
      ("LIBRARY " ++ ntBasename "mylib.dll") :: "EXPORTS" :: ["foo", "bar"] :=
  ⟨rfl, C2_def_file_contents sampleState "shared_object" (some ["build/a.o"])
    "mylib.dll" none none none none ["foo", "bar"] false none none none none
    "build\\mylib.def" ["LIBRARY mylib.dll", "EXPORTS", "foo", "bar"] rfl⟩

/-- C3: a completed link call generates the def file iff export symbols
are supplied and (the target is not an executable or the linker is
`gcc`); when generated, its path is the first object's directory joined
with the dll base name plus `.def`, that path is appended to the object
list passed to the underlying POSIX-style link step, and that step
receives `None` for its own export-symbols argument. -/
theorem C3_def_file_iff (st : CygwinState) (target_desc : String)
    (objects : Option (List String)) (output_filename : String)
    (output_dir : Option String)
    (libraries library_dirs runtime_library_dirs export_symbols : Option (List String))
    (debug : Bool) (extra_preargs extra_postargs : Option (List String))
    (build_temp target_lang : Option String) (r : UnixLinkArgs)
    (h : (cygwinLink st target_desc objects output_filename output_dir libraries
        library_dirs runtime_library_dirs export_symbols debug extra_preargs
        extra_postargs build_temp target_lang).result = .ok r) :
    ((cygwinLink st target_desc objects output_filename output_dir libraries
        library_dirs runtime_library_dirs export_symbols debug extra_preargs
        extra_postargs build_temp target_lang).defFile.isSome ↔
      (export_symbols ≠ none ∧ (target_desc ≠ EXECUTABLE ∨ st.linker_dll = "gcc"))) ∧
    (∀ p c, (cygwinLink st target_desc objects output_filename output_dir libraries
        library_dirs runtime_library_dirs export_symbols debug extra_preargs
        extra_postargs build_temp target_lang).defFile = some (p, c) →
      ∃ o0 rest, objects.getD [] = o0 :: rest ∧
        p = ntJoin (ntDirname o0)
          ((ntSplitext (ntBasename output_filename)).fst ++ ".def") ∧
        r.objects = (o0 :: rest) ++ [p]) ∧
    r.export_symbols = none := by
  rw [← exportCond_iff]
  revert h
  unfold cygwinLink
  cases hd : st.dll_libraries with
  | none => intro h; simp at h
  | some dlls =>
    dsimp only
    cases hc : exportCond st target_desc export_symbols with
    | false =>
      simp only [Bool.false_eq_true, if_false]
      intro h
      rw [Except.ok.injEq] at h
      subst h
      exact ⟨by simp, by simp, rfl⟩
    | true =>
      simp only [if_true]
      cases ho : objects.getD [] with
      | nil => dsimp only; intro h; simp at h
      | cons o0 rest =>
        dsimp only
        intro h
        rw [Except.ok.injEq] at h
        subst h
        refine ⟨by simp, ?_, rfl⟩
        intro p c hpc
        rw [Option.some.injEq, Prod.mk.injEq] at hpc
        exact ⟨o0, rest, rfl, by rw [← hpc.1]; rfl, by rw [← hpc.1]⟩

/-- Witness for C3 at a concrete shared-object link with one symbol. -/
theorem C3_def_file_iff_witness :
    ((cygwinLink sampleState "shared_object" (some ["build/a.o"]) "mylib.dll" none none
        none none (some ["foo"]) false none none none none).result =
      .ok { target_desc := "shared_object", objects := ["build/a.o", "build\\mylib.def"],
            output_filename := "mylib.dll", output_dir := none,
            libraries := ["vcruntime140"], library_dirs := none,
            runtime_library_dirs := none, export_symbols := none, debug := false,
            extra_preargs := ["-s"], extra_postargs := none, build_temp := none,
            target_lang := none }) ∧
    ((cygwinLink sampleState "shared_object" (some ["build/a.o"]) "mylib.dll" none none
        none none (some ["foo"]) false none none none none).defFile.isSome ↔
      (some ["foo"] ≠ none ∧
        ("shared_object" ≠ EXECUTABLE ∨ sampleState.linker_dll = "gcc"))) := by
  constructor
  · rfl
  · exact (C3_def_file_iff sampleState "shared_object" (some ["build/a.o"]) "mylib.dll"
      none none none none (some ["foo"]) false none none none none _ rfl).1

/-- C4 (code bug): on an interpreter whose version string carries no
`MSC v.` marker, `get_msvcr` returns `None`, construction stores it as
`dll_libraries`, and the first link call crashes with `TypeError` at
`libraries.extend(self.dll_libraries)` instead of leaving the caller's
library list unchanged as the spec's "no constraint" case intends. -/
theorem C4_no_marker_link_crashes :
    get_msvcr gccVersionStr = .ok none ∧
    cygwinInit none none gccVersionStr = .ok gccNoMscState ∧
    gccNoMscState.dll_libraries = none ∧
    (cygwinLink gccNoMscState "shared_object" (some ["a.o"]) "x.dll" none
        (some ["m"]) none none none false none none none none).result =
      .error .typeError := by
  refine ⟨rfl, rfl, rfl, rfl⟩

/-- Counterexample to C5 as stated: with pre-link arguments `["-O2"]`
and debug unset, the underlying linker receives `["-O2", "-s"]` — the
flag is appended, not prepended (`["-s", "-O2"]`). -/
theorem C5_strip_flag_cex :
    ((cygwinLink sampleState EXECUTABLE (some ["a.o"]) "prog.exe" none none none
        none none false (some ["-O2"]) none none none).result.map
      (fun r => r.extra_preargs)) = .ok ["-O2", "-s"] ∧
    ["-O2", "-s"] ≠ ["-s", "-O2"] := by
  constructor
  · rfl
  · decide

/-- C5 (amended): with the debug flag unset the strip flag `-s` is
APPENDED (not prepended) to the pre-link arguments passed to the
underlying linker, so it appears in that argument list; with the debug
flag set no strip flag is added. -/
theorem C5_strip_flag_appended (st : CygwinState) (target_desc : String)
    (objects : Option (List String)) (output_filename : String)
    (output_dir : Option String)
    (libraries library_dirs runtime_library_dirs export_symbols : Option (List String))
    (debug : Bool) (extra_preargs extra_postargs : Option (List String))
    (build_temp target_lang : Option String) (r : UnixLinkArgs)
    (h : (cygwinLink st target_desc objects output_filename output_dir libraries
        library_dirs runtime_library_dirs export_symbols debug extra_preargs
        extra_postargs build_temp target_lang).result = .ok r) :
    (debug = false → r.extra_preargs = extra_preargs.getD [] ++ ["-s"]) ∧
    (debug = true → r.extra_preargs = extra_preargs.getD []) := by
  revert h
  unfold cygwinLink
  cases hd : st.dll_libraries with
  | none => intro h; simp at h
  | some dlls =>
    dsimp only
    cases hc : exportCond st target_desc export_symbols with
    | false =>
      simp only [Bool.false_eq_true, if_false]
      intro h
      rw [Except.ok.injEq] at h
      subst h
      cases debug <;> simp
    | true =>
      simp only [if_true]
      cases ho : objects.getD [] with
      | nil => dsimp only; intro h; simp at h
      | cons o0 rest =>
        dsimp only
        intro h
        rw [Except.ok.injEq] at h
        subst h
        cases debug <;> simp

/-- Witness for C5 at a concrete executable link without export
symbols. -/
theorem C5_strip_flag_appended_witness :
    ((cygwinLink sampleState EXECUTABLE (some ["a.o"]) "prog.exe" none none none
        none none false (some ["-O2"]) none none none).result = .ok c5r) ∧
    c5r.extra_preargs = (some ["-O2"]).getD [] ++ ["-s"] := by
  refine ⟨rfl, ?_⟩
  exact (C5_strip_flag_appended sampleState EXECUTABLE (some ["a.o"]) "prog.exe"
    none none none none none false (some ["-O2"]) none none none c5r rfl).1 rfl

/-- Counterexample to C6 as stated: for the pair `Sub/FOO.RC` and
`Sub/foo.rc` (differing only in filename case) both outputs are
`sub\foo.rc.o`, but the directory part of the output is `sub`, not the
source's `Sub` — the case of the rest of the path is folded, not
preserved. -/
theorem C6_rest_of_path_case_cex :
    cygwin_make_out_path "" false "Sub/FOO.RC" = some "sub\\foo.rc.o" ∧
    cygwin_make_out_path "" false "Sub/foo.rc" = some "sub\\foo.rc.o" ∧
    ntDirname "Sub/foo.rc" = "Sub" ∧
    ntDirname "sub\\foo.rc.o" = "sub" ∧
    "sub" ≠ "Sub" := by
  refine ⟨rfl, rfl, rfl, rfl, by decide⟩

/-- C6 (amended): output-path derivation normalizes the case of the
whole source path (Windows `normcase`), so any two source paths equal up
to ASCII case — in particular two that differ only in the case of the
filename — produce the same output object path. -/
theorem C6_out_path_case_normalized (output_dir : String) (strip_dir : Bool)
    (s1 s2 : String)
    (h : s1.data.map Char.toLower = s2.data.map Char.toLower) :
    cygwin_make_out_path output_dir strip_dir s1 =
      cygwin_make_out_path output_dir strip_dir s2 := by
  unfold cygwin_make_out_path
  rw [ntNormcase_eq_of_toLower_eq h]

/-- Witness for C6: `FOO.RC` and `foo.rc` produce the same output
path. -/
theorem C6_out_path_case_normalized_witness :
    ("FOO.RC".data.map Char.toLower = "foo.rc".data.map Char.toLower) ∧
    cygwin_make_out_path "out" false "FOO.RC" =
      cygwin_make_out_path "out" false "foo.rc" :=
  ⟨by decide, C6_out_path_case_normalized "out" false "FOO.RC" "foo.rc" (by decide)⟩

/-- Counterexample to C7 as stated: with a Cygwin-targeting compiler
but a version string at the `MSC v.2000` sentinel, construction fails
with the propagated `ValueError` from `get_msvcr`, not with
`CCompilerError`. -/
theorem C7_mingw32_cygwin_gate_cex :
    is_cygwincc "gcc" cygDump = true ∧
    mingw32Init none none "3.99.0 [MSC v.2000 64 bit]" cygDump =
      .error (.valueError "Unknown MS Compiler version 2000 ") ∧
    ∀ msg, mingw32Init none none "3.99.0 [MSC v.2000 64 bit]" cygDump ≠
      .error (.ccompilerError msg) := by
  refine ⟨by decide, rfl, ?_⟩
  intro msg h
  rw [show mingw32Init none none "3.99.0 [MSC v.2000 64 bit]" cygDump =
      .error (.valueError "Unknown MS Compiler version 2000 ") from rfl] at h
  simp at h

/-- C7 (amended): provided the runtime-library resolution run by the
superclass constructor does not itself fail, constructing the MinGW-only
adapter fails with `CCompilerError` iff the detected compiler reports a
Cygwin target, and succeeds whenever it does not. -/
theorem C7_mingw32_cygwin_gate (env_cc env_cxx : Option String) (version : String)
    (dump : String → String) (hv : ∃ x, get_msvcr version = .ok x) :
    ((∃ msg, mingw32Init env_cc env_cxx version dump = .error (.ccompilerError msg)) ↔
      is_cygwincc (env_cc.getD "gcc") dump = true) ∧
    (is_cygwincc (env_cc.getD "gcc") dump = false →
      ∃ st, mingw32Init env_cc env_cxx version dump = .ok st) := by
  obtain ⟨x, hx⟩ := hv
  unfold mingw32Init cygwinInit
  rw [hx]
  dsimp only
  by_cases hc : is_cygwincc (env_cc.getD "gcc") dump
  · constructor
    · rw [if_pos hc]
      simp [hc]
    · intro hfalse
      rw [hc] at hfalse
      simp at hfalse
  · constructor
    · rw [if_neg hc]
      simp
      simpa using hc
    · intro _
      rw [if_neg hc]
      exact ⟨_, rfl⟩

/-- Witness for C7 with a MinGW-targeting compiler on an MSC 1916
interpreter. -/
theorem C7_mingw32_cygwin_gate_witness :
    (∃ x, get_msvcr "3.10.4 [MSC v.1916 64 bit]" = .ok x) ∧
    (((∃ msg, mingw32Init none none "3.10.4 [MSC v.1916 64 bit]" mingwDump =
        .error (.ccompilerError msg)) ↔
      is_cygwincc ((none : Option String).getD "gcc") mingwDump = true) ∧
     (is_cygwincc ((none : Option String).getD "gcc") mingwDump = false →
      ∃ st, mingw32Init none none "3.10.4 [MSC v.1916 64 bit]" mingwDump = .ok st)) :=
  ⟨⟨some ["vcruntime140"], rfl⟩,
   C7_mingw32_cygwin_gate none none _ mingwDump ⟨some ["vcruntime140"], rfl⟩⟩

/-- C8: a link call with a truthy `runtime_library_dirs` always emits
the unsupported-feature warning; `runtime_library_dir_option` of the
Cygwin variant warns and contributes no flags, and that of the MinGW
variant raises `DistutilsPlatformError` — the request is always reported,
never silently honoured. -/
theorem C8_runtime_dirs_reported (st : CygwinState) (target_desc : String)
    (objects : Option (List String)) (output_filename : String)
    (output_dir : Option String)
    (libraries library_dirs runtime_library_dirs export_symbols : Option (List String))
    (debug : Bool) (extra_preargs extra_postargs : Option (List String))
    (build_temp target_lang : Option String) (d : String)
    (h : truthy runtime_library_dirs = true) :
    _runtime_library_dirs_msg ∈
      (cygwinLink st target_desc objects output_filename output_dir libraries
        library_dirs runtime_library_dirs export_symbols debug extra_preargs
        extra_postargs build_temp target_lang).warnings ∧
    cygwin_runtime_library_dir_option d = ([_runtime_library_dirs_msg], []) ∧
    mingw32_runtime_library_dir_option d = .error _runtime_library_dirs_msg := by
  refine ⟨?_, rfl, rfl⟩
  unfold cygwinLink
  cases hd : st.dll_libraries with
  | none => simp [h]
  | some dlls =>
    dsimp only
    cases hc : exportCond st target_desc export_symbols with
    | false => simp [h]
    | true =>
      simp only [if_true]
      cases ho : objects.getD [] with
      | nil => simp [h]
      | cons o0 rest => simp [h]

/-- Witness for C8 at a concrete link with one runtime dir. -/
theorem C8_runtime_dirs_reported_witness :
    truthy (some ["/usr/lib"]) = true ∧
    (_runtime_library_dirs_msg ∈
      (cygwinLink sampleState "shared_object" (some ["a.o"]) "x.dll" none none none
        (some ["/usr/lib"]) none false none none none none).warnings ∧
     cygwin_runtime_library_dir_option "/usr/lib" = ([_runtime_library_dirs_msg], []) ∧
     mingw32_runtime_library_dir_option "/usr/lib" = .error _runtime_library_dirs_msg) :=
  ⟨rfl, C8_runtime_dirs_reported sampleState "shared_object" (some ["a.o"]) "x.dll" none
    none none (some ["/usr/lib"]) none false none none none none "/usr/lib" rfl⟩

/-- C9: at the heap level, every list object allocated before the call
— in particular the caller's extra pre-link arguments, libraries and
objects lists — holds the same value after `link` returns (or raises):
the method mutates only its own fresh copies. -/
theorem C9_caller_lists_not_mutated (st0 : List (List String)) (state : CygwinState)
    (target_desc : String) (objectsRef : Option Nat) (output_filename : String)
    (librariesRef : Option Nat) (runtime_library_dirs : Option (List String))
    (export_symbols : Option (List String)) (debug : Bool)
    (extra_preargsRef : Option Nat) (i : Nat) (h : i < st0.length) :
    storeGet (cygwinLinkSt st0 state target_desc objectsRef output_filename
      librariesRef runtime_library_dirs export_symbols debug extra_preargsRef) i =
      storeGet st0 i := by
  unfold cygwinLinkSt
  dsimp only
  cases state.dll_libraries with
  | none => exact storeGet_append _ _ _ h
  | some dlls =>
    cases hc : exportCond state target_desc export_symbols with
    | false =>
      simp only [Bool.false_eq_true, if_false]
      cases debug with
      | true =>
        simp only [if_true]
        rw [storeGet_set_ne _ (st0.length + 1) _ i (by omega),
          storeGet_append _ _ _ h]
      | false =>
        simp only [Bool.false_eq_true, if_false]
        rw [storeGet_set_ne _ st0.length _ i (by omega),
          storeGet_set_ne _ (st0.length + 1) _ i (by omega),
          storeGet_append _ _ _ h]
    | true =>
      simp only [if_true]
      cases hobj : storeGet (storeSet (st0 ++ [_, _, _]) (st0.length + 1) _)
          (st0.length + 2) with
      | nil =>
        rw [storeGet_set_ne _ (st0.length + 1) _ i (by omega),
          storeGet_append _ _ _ h]
      | cons o0 rest =>
        cases debug with
        | true =>
          simp only [if_true]
          rw [storeGet_set_ne _ (st0.length + 2) _ i (by omega),
            storeGet_set_ne _ (st0.length + 1) _ i (by omega),
            storeGet_append _ _ _ h]
        | false =>
          simp only [Bool.false_eq_true, if_false]
          rw [storeGet_set_ne _ st0.length _ i (by omega),
            storeGet_set_ne _ (st0.length + 2) _ i (by omega),
            storeGet_set_ne _ (st0.length + 1) _ i (by omega),
            storeGet_append _ _ _ h]


/-- Witness for C9: a store holding the caller's three lists is
unchanged at index 0 by a link call that mutates all three copies. -/
theorem C9_caller_lists_not_mutated_witness :
    (0 < ([["-O2"], ["m"], ["a.o"]] : List (List String)).length) ∧
    storeGet (cygwinLinkSt [["-O2"], ["m"], ["a.o"]] sampleState "shared_object"
      (some 2) "x.dll" (some 1) none (some ["foo"]) false (some 0)) 0 =
      storeGet [["-O2"], ["m"], ["a.o"]] 0 :=
  ⟨by decide, C9_caller_lists_not_mutated _ _ _ _ _ _ _ _ _ _ 0 (by decide)⟩

/-- C10: when export symbols are supplied and the target/linker
condition holds but the object list is empty, `link` fails on the
out-of-range `objects[0]` before any def file is written; and a present
but empty export-symbol list still generates a def file holding only the
`LIBRARY` and `EXPORTS` header lines. -/
theorem C10_empty_objects_and_empty_exports (st : CygwinState) (dlls : List String)
    (target_desc : String) (objects : Option (List String)) (output_filename : String)
    (output_dir : Option String)
    (libraries library_dirs runtime_library_dirs export_symbols : Option (List String))
    (debug : Bool) (extra_preargs extra_postargs : Option (List String))
    (build_temp target_lang : Option String)
    (hdll : st.dll_libraries = some dlls) :
    (objects.getD [] = [] → exportCond st target_desc export_symbols = true →
      (cygwinLink st target_desc objects output_filename output_dir libraries
        library_dirs runtime_library_dirs export_symbols debug extra_preargs
        extra_postargs build_temp target_lang).result = .error .indexError ∧
      (cygwinLink st target_desc objects output_filename output_dir libraries
        library_dirs runtime_library_dirs export_symbols debug extra_preargs
        extra_postargs build_temp target_lang).defFile = none) ∧
    (∀ o0 rest, objects.getD [] = o0 :: rest → export_symbols = some [] →
      exportCond st target_desc export_symbols = true →
      (cygwinLink st target_desc objects output_filename output_dir libraries
        library_dirs runtime_library_dirs export_symbols debug extra_preargs
        extra_postargs build_temp target_lang).defFile =
        some (defFilePath o0 output_filename,
          ["LIBRARY " ++ ntBasename output_filename, "EXPORTS"])) := by
  constructor
  · intro ho hc
    unfold cygwinLink
    rw [hdll]
    dsimp only
    rw [hc]
    simp only [if_true]
    rw [ho]
    exact ⟨rfl, rfl⟩
  · intro o0 rest ho hes hc
    unfold cygwinLink
    rw [hdll]
    dsimp only
    rw [hc]
    simp only [if_true]
    rw [ho]
    dsimp only
    rw [hes]
    rfl

/-- Witness for C10: an empty object list with symbols to export, and a
present-but-empty symbol list. -/
theorem C10_empty_objects_witness :
    (sampleState.dll_libraries = some ["vcruntime140"]) ∧
    ((cygwinLink sampleState "shared_object" (some []) "x.dll" none none none none
        (some ["foo"]) false none none none none).result = .error .indexError ∧
     (cygwinLink sampleState "shared_object" (some []) "x.dll" none none none none
        (some ["foo"]) false none none none none).defFile = none) ∧
    ((cygwinLink sampleState "shared_object" (some ["b/a.o"]) "x.dll" none none none none
        (some []) false none none none none).defFile =
      some (defFilePath "b/a.o" "x.dll", ["LIBRARY " ++ ntBasename "x.dll", "EXPORTS"])) := by
  refine ⟨rfl, ?_, ?_⟩
  · exact (C10_empty_objects_and_empty_exports sampleState ["vcruntime140"]
      "shared_object" (some []) "x.dll" none none none none (some ["foo"]) false
      none none none none rfl).1 rfl (by decide)
  · exact (C10_empty_objects_and_empty_exports sampleState ["vcruntime140"]
      "shared_object" (some ["b/a.o"]) "x.dll" none none none none (some []) false
      none none none none rfl).2 "b/a.o" [] rfl rfl (by decide)
